import Mathlib

/-!
Verification development for the Leakware leak-testing application.

Shallow embedding of the numeric conversion, parsing and device-classification
routines of the repository (`helium.py`, `create_pdf.py`, `check_serial.py`,
`HeliumLeakTestApp.py`), with theorems settling the stated behavioural claims.
Python floats are modelled as real numbers, Python strings as `String`,
Python `None`-or-value results as `Option`.
-/

/-! ## helium.py: `parse_data`

`parse_data` runs `re.search` with the fixed pattern

  `He\s+(\d+\.\d+)\s*%\s*O2\s+(\d+\.\d+)\s*%\s*Ti\s+(\d+\.\d+)\s*~C\s+(\d+\.\d+)\s*hPa\s+(\d{4}/\d{2}/\d{2}\s+\d{2}:\d{2}:\d{2})`

and returns group 1 (the helium percentage) on a match, `None` otherwise.
Every repetition operator in the pattern is followed by a token from a
disjoint character class (a digit run is always followed by a non-digit
literal, a whitespace run by a non-whitespace literal), so the backtracking
search is equivalent to the greedy deterministic matcher embedded below.
`re.search` tries the pattern at every start offset, leftmost first. -/

/-- Python regex `\s` character class (ASCII part, which is all the analyzer emits). -/
def pySpace (c : Char) : Bool :=
  c = ' ' || c = '\t' || c = '\n' || c = '\r' || c = '\x0b' || c = '\x0c'

/-- Match a literal character sequence, returning the rest of the input. -/
def litM : List Char → List Char → Option (List Char)
  | [], cs => some cs
  | l :: ls, c :: cs => if c = l then litM ls cs else none
  | _ :: _, [] => none

/-- Regex token for one-or-more whitespace. -/
def ws1 (cs : List Char) : Option (List Char) :=
  let p := cs.span pySpace
  if p.1.isEmpty then none else some p.2

/-- Regex token for zero-or-more whitespace. -/
def ws0 (cs : List Char) : List Char := (cs.span pySpace).2

/-- Regex token for a decimal group as written in the pattern, digits dot digits;
returns the matched text and the rest of the input. -/
def decimalM (cs : List Char) : Option (List Char × List Char) :=
  let p := cs.span Char.isDigit
  if p.1.isEmpty then none else
    match p.2 with
    | '.' :: r2 =>
      let q := r2.span Char.isDigit
      if q.1.isEmpty then none else some (p.1 ++ '.' :: q.1, q.2)
    | _ => none

/-- Regex token for exactly `n` digits. -/
def digitsN : Nat → List Char → Option (List Char)
  | 0, cs => some cs
  | n + 1, c :: cs => if c.isDigit then digitsN n cs else none
  | _ + 1, [] => none

/-- One token of the fixed pattern. -/
inductive RTok where
  | lit : List Char → RTok
  | wsPlus : RTok
  | wsStar : RTok
  | dec : RTok
  | digits : Nat → RTok

/-- Run one pattern token at the head of the input. -/
def runTok : RTok → List Char → Option (List Char)
  | .lit l, cs => litM l cs
  | .wsPlus, cs => ws1 cs
  | .wsStar, cs => some (ws0 cs)
  | .dec, cs => (decimalM cs).map Prod.snd
  | .digits n, cs => digitsN n cs

/-- Run a sequence of pattern tokens at the head of the input. -/
def runToks : List RTok → List Char → Option (List Char)
  | [], cs => some cs
  | t :: ts, cs =>
    match runTok t cs with
    | some cs1 => runToks ts cs1
    | none => none

/-- The part of the pattern that follows group 1, token by token:
`\s*%\s*O2\s+(\d+\.\d+)\s*%\s*Ti\s+(\d+\.\d+)\s*~C\s+(\d+\.\d+)\s*hPa\s+\d{4}/\d{2}/\d{2}\s+\d{2}:\d{2}:\d{2}`. -/
def restPattern : List RTok :=
  [.wsStar, .lit ['%'], .wsStar, .lit ['O', '2'], .wsPlus, .dec,
   .wsStar, .lit ['%'], .wsStar, .lit ['T', 'i'], .wsPlus, .dec,
   .wsStar, .lit ['~', 'C'], .wsPlus, .dec,
   .wsStar, .lit ['h', 'P', 'a'], .wsPlus,
   .digits 4, .lit ['/'], .digits 2, .lit ['/'], .digits 2, .wsPlus,
   .digits 2, .lit [':'], .digits 2, .lit [':'], .digits 2]

/-- Match the whole analyzer-line pattern anchored at the start of `cs`,
returning group 1 (the helium percentage) on success. -/
def matchAt (cs : List Char) : Option String := do
  let cs ← litM ['H', 'e'] cs
  let cs ← ws1 cs
  let (he, cs) ← decimalM cs
  let _ ← runToks restPattern cs
  pure (String.mk he)

/-- `re.search`: try the pattern at every start offset, leftmost first. -/
def searchHe : List Char → Option String
  | [] => none
  | c :: rest =>
    match matchAt (c :: rest) with
    | some v => some v
    | none => searchHe rest

/-- `helium.parse_data`: extract the helium percentage from an analyzer line,
`None` when the pattern does not occur. -/
def parse_data (s : String) : Option String :=
  searchHe s.data

/-! ## create_pdf.py: `get_elem_direction_value`

Direct transcription of the `if`/`elif` chain at the bottom of
`create_pdf.py`. -/

/-- `create_pdf.get_elem_direction_value`: map a direction code to its label. -/
def get_elem_direction_value (direction : String) : String :=
  if direction = "0" then "Nut facing upwards"
  else if direction = "1" then "Nut facing downwards"
  else if direction = "2" then "Capnut facing upwards"
  else if direction = "3" then "Capnut facing downwards"
  else if direction = "4" then "Bolt facing upwards"
  else if direction = "5" then "Bolt facing downwards"
  else ""

/-- The documented code→label table, written as the spec states it. -/
def directionTable : List (String × String) :=
  [("0", "Nut facing upwards"), ("1", "Nut facing downwards"),
   ("2", "Capnut facing upwards"), ("3", "Capnut facing downwards"),
   ("4", "Bolt facing upwards"), ("5", "Bolt facing downwards")]

/-! ## HeliumLeakTestApp.py: `get_power_on_time`

The function returns 0 when the leak detector is marked unavailable, when a
`serial.SerialException` is raised while opening/configuring the port
(`openRaises`) or during the post-read flush (`flushRaises`), and when
`int()` fails on the reply (`ValueError` handler sets `time_pwron = 0`);
otherwise it returns the parsed integer. The serial environment is modelled
by the two exception flags and the reply line. -/

/-- Value of a nonempty digit string. -/
def digitsVal (ds : List Char) : Nat :=
  ds.foldl (fun a c => a * 10 + (c.toNat - 48)) 0

/-- Strip leading and trailing whitespace, as Python `int()` does. -/
def trimWs (cs : List Char) : List Char :=
  ((cs.dropWhile pySpace).reverse.dropWhile pySpace).reverse

/-- Python `int(str)` on a decimal reply: optional sign, one or more digits,
surrounding whitespace ignored; anything else raises `ValueError` (`none`). -/
def pythonInt (s : String) : Option Int :=
  match trimWs s.data with
  | '-' :: ds => if ds ≠ [] ∧ ds.all Char.isDigit then some (-(digitsVal ds : Int)) else none
  | '+' :: ds => if ds ≠ [] ∧ ds.all Char.isDigit then some (digitsVal ds) else none
  | ds => if ds ≠ [] ∧ ds.all Char.isDigit then some (digitsVal ds) else none

/-- `HeliumLeakTestApp.get_power_on_time`. -/
def get_power_on_time (leakDetector_available openRaises : Bool)
    (reply : String) (flushRaises : Bool) : Int :=
  if leakDetector_available then
    if openRaises then 0
    else
      let time_pwron :=
        match pythonInt reply with
        | some n => n
        | none => 0
      if flushRaises then 0 else time_pwron
  else 0
/-! ## check_serial.py: vendor-ID classification

`get_serial_devices` scans ports twice. The first pass tests
`str(port.vid) == SERIAL_PORT_VID` — a Python `str` compared with the `int`
constant 1027, which is always `False` in Python. The second pass compares
`port.vid` (an `int`, or `None`) against the integer vendor-ID constants
directly. Python values of the relevant types and Python `==` are embedded
below. -/

/-- A Python value as it appears in these comparisons. -/
inductive PyValue where
  | intV : Int → PyValue
  | strV : String → PyValue
  | noneV : PyValue

/-- Python `==` on such values: values of different types compare unequal. -/
def pyEq : PyValue → PyValue → Bool
  | .intV a, .intV b => a == b
  | .strV a, .strV b => a == b
  | .noneV, .noneV => true
  | _, _ => false

/-- Python `str(...)` of such a value. -/
def pyStr : PyValue → String
  | .intV n => toString n
  | .strV s => s
  | .noneV => "None"

def INFICON_LEAK_DETECTOR_VID : Int := 1240

def HELIUM_ANALYZER_VID : Int := 42496

def SERIAL_PORT_VID : Int := 1027

/-- First scan pass relay test, from the source line
`if str(port.vid) == SERIAL_PORT_VID:`. -/
def relay_first_pass_match (vid : PyValue) : Bool :=
  pyEq (.strV (pyStr vid)) (.intV SERIAL_PORT_VID)

/-- Second scan pass classification, from the `elif` chain over `port.vid`,
with `stop_gas_flow_ok` the outcome of the stop-gas-flow probe. -/
def second_pass_classify (vid : PyValue) (stop_gas_flow_ok : Bool) : Option String :=
  if pyEq vid (.intV INFICON_LEAK_DETECTOR_VID) then some "Leak Detector"
  else if pyEq vid (.intV HELIUM_ANALYZER_VID) then some "Helium Analyzer"
  else if pyEq vid (.intV SERIAL_PORT_VID) then
    if stop_gas_flow_ok then some "Mass Flow Controller" else some "Pressure Gauge"
  else none

/-! ## helium.py: `read_from_serial`

The function is called on a live port; each (possibly recursive) invocation
observes the port state at its moment of call: whether a
`serial.SerialException` interrupts that invocation, how many bytes are
waiting, and the line `readline` would deliver. The list holds the
observation of the current call followed by those of the recursive retries;
an exhausted list means the retries end without data, in which case every
frame falls off the end of the function body (Python returns `None`). -/

/-- A Python return value of `read_from_serial`. -/
inductive PyRet where
  | noneV : PyRet
  | strV : String → PyRet
  | intV : Int → PyRet

/-- One invocation's view of the serial port. -/
structure PortObs where
  raises : Bool
  in_waiting : Nat
  line : String

/-- `helium.read_from_serial`: the recursive call's value is discarded by the
source (`read_from_serial(ser, root)` without `return`), so the branch with
no waiting bytes always produces `None`; a serial exception during the call
produces `0`. -/
def read_from_serial : List PortObs → PyRet
  | [] => PyRet.noneV
  | obs :: rest =>
    if obs.raises then PyRet.intV 0
    else if obs.in_waiting > 0 then
      match parse_data obs.line with
      | some v => PyRet.strV v
      | none => PyRet.noneV
    else
      let _ := read_from_serial rest
      PyRet.noneV
/-! ## create_pdf.py: `convert_he_to_air`

Python floats are idealised as real numbers and `x ** 0.5` (taken on a
non-negative quotient of temperatures) as `Real.sqrt`. The closure reads
`report_data.pressure_difference` and `report_data.rate_unit`; both appear
here as explicit arguments. -/

/-- Viscosity of helium (in μPa·s). -/
noncomputable def ETA_HE : ℝ := 19.6

/-- Viscosity of air (in μPa·s). -/
noncomputable def ETA_AIR : ℝ := 18.19

/-- Constant pressure (in bar). -/
noncomputable def PA1 : ℝ := 1.0

/-- Constant pressure (in bar). -/
noncomputable def PA2 : ℝ := 0.0

/-- Constant pressure (in bar). -/
noncomputable def PB2 : ℝ := 1.0

/-- Constant temperature (in K). -/
noncomputable def T1 : ℝ := 273.0

/-- `create_pdf.convert_he_to_air`. -/
noncomputable def convert_he_to_air (he_leak_rate average_temperature : ℝ)
    (pressure_difference : ℝ) (rate_unit : String) : ℝ :=
  let pb1 := pressure_difference + 1
  let delta_p := (pb1 ^ 2 - PB2 ^ 2) / (PA1 ^ 2 - PA2 ^ 2)
  let air_leakrate := he_leak_rate * (ETA_HE / ETA_AIR)
  let air_leakrate := if delta_p > 0 then air_leakrate * delta_p else air_leakrate
  if rate_unit = "SCCM" then
    (air_leakrate * 60) * Real.sqrt (average_temperature / T1)
  else air_leakrate

/-! ## create_pdf.py: measurement loop and specimen-series conversion

`create_pdf` walks `measurements_list` once, multiplying `max_value` and
`value_mbarl_second` by 60 when the rate unit is `"cm³/min"` and converting
them to air when the test medium is `"Air"`; `flag` starts `True`, each
applied transformation clears it, and `if flag: break` stops after the
first element when neither transformation applies. The Python loop variable
`measurement` keeps its last value after the loop; the inner function
`load_data_from_database_pdf`, called afterwards, reads that leftover
variable for every specimen point (a `NameError` — modelled as `none` —
when the loop never ran). -/

/-- One `Measurement` row as used by `create_pdf`. -/
structure MeasurementR where
  panel_no : Int
  location_no : Int
  time_in_seconds : ℝ
  value_mbarl_second : ℝ
  max_value : ℝ
  average_temperature : ℝ

/-- One `Specimen` row, with its JSON series already decoded. -/
structure SpecimenR where
  x_value : List ℝ
  y_value : List ℝ

/-- The body of the measurement loop for one element: unit scaling, then
air conversion, each clearing `flag`. -/
noncomputable def step_measurement (ru medium : String) (pd : ℝ)
    (m : MeasurementR) (flag : Bool) : MeasurementR × Bool :=
  let p1 : MeasurementR × Bool :=
    if ru = "cm³/min" then
      ({ m with max_value := m.max_value * 60,
                value_mbarl_second := m.value_mbarl_second * 60 }, false)
    else (m, flag)
  if medium = "Air" then
    ({ p1.1 with
        max_value := convert_he_to_air p1.1.max_value m.average_temperature pd ru,
        value_mbarl_second :=
          convert_he_to_air p1.1.value_mbarl_second m.average_temperature pd ru }, false)
  else p1

/-- The measurement loop: processed list together with the leftover loop
variable; `if flag: break` leaves the remaining elements untouched. -/
noncomputable def process_measurements_loop (ru medium : String) (pd : ℝ) :
    List MeasurementR → Bool → Option MeasurementR →
    List MeasurementR × Option MeasurementR
  | [], _, last => ([], last)
  | m :: rest, flag, _ =>
    let s := step_measurement ru medium pd m flag
    if s.2 then (s.1 :: rest, some m)
    else
      let r := process_measurements_loop ru medium pd rest s.2 (some m)
      (s.1 :: r.1, r.2)

/-- The measurement loop of `create_pdf`, `flag` starting `True` and the
loop variable initially unbound. -/
noncomputable def process_measurements (ru medium : String) (pd : ℝ)
    (ms : List MeasurementR) : List MeasurementR × Option MeasurementR :=
  process_measurements_loop ru medium pd ms true none

/-- Conversion of one specimen point in `load_data_from_database_pdf`;
`measurement` is the leftover loop variable (`none` = unbound, a
`NameError` when the `"Air"` branch reads it). -/
noncomputable def convert_y (ru medium : String) (pd : ℝ)
    (measurement : Option MeasurementR) (y : ℝ) : Option ℝ :=
  let y1 := if ru = "cm³/min" then y * 60 else y
  if medium = "Air" then
    match measurement with
    | some m => some (convert_he_to_air y1 m.average_temperature pd ru)
    | none => none
  else some y1

/-- The inner loop of `load_data_from_database_pdf` building
`converted_leak_rates`. -/
noncomputable def convert_leak_rates (ru medium : String) (pd : ℝ)
    (measurement : Option MeasurementR) : List ℝ → Option (List ℝ)
  | [] => some []
  | y :: ys =>
    match convert_y ru medium pd measurement y with
    | none => none
    | some v =>
      match convert_leak_rates ru medium pd measurement ys with
      | none => none
      | some vs => some (v :: vs)

/-- `create_pdf.load_data_from_database_pdf`, restricted to the y-series it
computes (`element_listy`); `none` models the `NameError` raised when a
point must be converted to air but the loop variable is unbound. -/
noncomputable def load_data_from_database_pdf (ru medium : String) (pd : ℝ)
    (measurement : Option MeasurementR) : List SpecimenR → Option (List (List ℝ))
  | [] => some []
  | sp :: sps =>
    match convert_leak_rates ru medium pd measurement sp.y_value with
    | none => none
    | some ys =>
      match load_data_from_database_pdf ru medium pd measurement sps with
      | none => none
      | some rest => some (ys :: rest)

/-- Scaling of one measurement by the seconds→minutes factor. -/
noncomputable def scale60 (m : MeasurementR) : MeasurementR :=
  { m with max_value := m.max_value * 60,
           value_mbarl_second := m.value_mbarl_second * 60 }

/-- Example measurement row for witnesses. -/
noncomputable def mExample : MeasurementR := ⟨0, 0, 0, 1, 2, 300⟩

/-- Example specimen row for witnesses. -/
noncomputable def spExample : SpecimenR := ⟨[0], [5]⟩

/-! ### Characterisation of the search -/

theorem matchAt_nil : matchAt [] = none := rfl

theorem searchHe_some_split :
    ∀ (cs : List Char) (v : String), searchHe cs = some v →
      ∃ l₁ l₂, cs = l₁ ++ l₂ ∧ matchAt l₂ = some v := by
  intro cs
  induction cs with
  | nil => intro v h; simp [searchHe] at h
  | cons c rest ih =>
    intro v h
    rw [searchHe] at h
    cases hm : matchAt (c :: rest) with
    | some w =>
      rw [hm] at h
      exact ⟨[], c :: rest, rfl, hm.trans h⟩
    | none =>
      rw [hm] at h
      obtain ⟨l₁, l₂, heq, hmv⟩ := ih v h
      exact ⟨c :: l₁, l₂, by rw [heq]; rfl, hmv⟩

theorem searchHe_none_iff :
    ∀ cs : List Char, searchHe cs = none ↔
      ∀ l₁ l₂, cs = l₁ ++ l₂ → matchAt l₂ = none := by
  intro cs
  induction cs with
  | nil =>
    constructor
    · intro _ l₁ l₂ hsplit
      rcases List.append_eq_nil.mp hsplit.symm with ⟨rfl, rfl⟩
      exact matchAt_nil
    · intro _; rfl
  | cons c rest ih =>
    rw [searchHe]
    cases hm : matchAt (c :: rest) with
    | some w =>
      simp only [reduceCtorEq, false_iff, not_forall]
      exact ⟨[], c :: rest, rfl, by rw [hm]; simp⟩
    | none =>
      rw [ih]
      constructor
      · intro hall l₁ l₂ hsplit
        cases l₁ with
        | nil =>
          have hl : l₂ = c :: rest := by simpa using hsplit.symm
          rw [hl]
          exact hm
        | cons a l₁ =>
          simp only [List.cons_append] at hsplit
          injection hsplit with h1 h2
          exact hall l₁ l₂ h2
      · intro hall l₁ l₂ hsplit
        exact hall (c :: l₁) l₂ (by rw [hsplit]; rfl)

/-- C2: `parse_data` extracts the helium percentage (the first decimal group
following the `He` literal of a pattern match) from a well-formed analyzer
line — in particular the documented example yields `"23.5"` — and returns
`None` exactly when no position of the input matches the analyzer-line
grammar. -/
theorem parse_data_analyzer_grammar :
    parse_data "He 23.5% O2 21.2% Ti 25.0~C 1012.3 hPa 2024/05/14 15:30:00" = some "23.5" ∧
    (∀ (s : String) (v : String), parse_data s = some v →
      ∃ l₁ l₂, s.data = l₁ ++ l₂ ∧ matchAt l₂ = some v) ∧
    (∀ s : String, parse_data s = none ↔
      ∀ l₁ l₂, s.data = l₁ ++ l₂ → matchAt l₂ = none) := by
  refine ⟨rfl, ?_, ?_⟩
  · intro s v h
    exact searchHe_some_split s.data v h
  · intro s
    exact searchHe_none_iff s.data

/-- Witness for C2: the documented example line really contains a suffix on
which the full analyzer-line pattern matches with helium group `"23.5"`. -/
theorem parse_data_analyzer_grammar_witness :
    ∃ l₁ l₂,
      ("He 23.5% O2 21.2% Ti 25.0~C 1012.3 hPa 2024/05/14 15:30:00" : String).data = l₁ ++ l₂ ∧
      matchAt l₂ = some "23.5" :=
  parse_data_analyzer_grammar.2.1
    "He 23.5% O2 21.2% Ti 25.0~C 1012.3 hPa 2024/05/14 15:30:00" "23.5" rfl

/-- C3: for every input string, `get_elem_direction_value` returns the
documented label for codes `"0"`–`"5"` and the empty string for every other
input: it agrees everywhere with lookup in the documented table, defaulting
to `""`. -/
theorem get_elem_direction_value_table :
    ∀ d : String, get_elem_direction_value d = ((directionTable.lookup d).getD "") := by
  intro d
  unfold get_elem_direction_value directionTable
  split_ifs with h0 h1 h2 h3 h4 h5 <;>
    try simp_all [List.lookup, beq_iff_eq]
  have e0 : (d == "0") = false := by simpa using h0
  have e1 : (d == "1") = false := by simpa using h1
  have e2 : (d == "2") = false := by simpa using h2
  have e3 : (d == "3") = false := by simpa using h3
  have e4 : (d == "4") = false := by simpa using h4
  have e5 : (d == "5") = false := by simpa using h5
  simp [List.lookup, e0, e1, e2, e3, e4, e5]


/-- C4: `get_power_on_time` returns 0 on every failure path — detector
unavailable, serial exception while opening/configuring, unparseable reply —
and the parsed integer power-on time otherwise; being a total function into
`Int`, it never raises to its caller. -/
theorem get_power_on_time_defaults :
    ∀ (avail openRaises flushRaises : Bool) (reply : String),
      (avail = false → get_power_on_time avail openRaises reply flushRaises = 0) ∧
      (openRaises = true → get_power_on_time avail openRaises reply flushRaises = 0) ∧
      (flushRaises = true → get_power_on_time avail openRaises reply flushRaises = 0) ∧
      (pythonInt reply = none → get_power_on_time avail openRaises reply flushRaises = 0) ∧
      (∀ n : Int, avail = true → openRaises = false → flushRaises = false →
        pythonInt reply = some n →
        get_power_on_time avail openRaises reply flushRaises = n) := by
  intro a o f r
  refine ⟨?_, ?_, ?_, ?_, ?_⟩
  · intro h; subst h; rfl
  · intro h; subst h; simp [get_power_on_time]
  · intro h; subst h; simp [get_power_on_time]
  · intro h; simp [get_power_on_time, h]
  · intro n ha ho hf hp
    subst ha; subst ho; subst hf
    simp [get_power_on_time, hp]

/-- Witness for C4: with the detector available, no serial exception and the
reply `"42"`, the power-on time 42 is returned. -/
theorem get_power_on_time_defaults_witness :
    get_power_on_time true false "42" false = 42 :=
  (get_power_on_time_defaults true false false "42").2.2.2.2 42 rfl rfl rfl (by rfl)

/-- C8: the first scan pass never detects the Relay Switch — the comparison
`str(port.vid) == SERIAL_PORT_VID` is a string/int comparison that is `False`
for every port, including one whose vendor ID is 1027 — while the second pass
classifies vendor IDs 1240, 42496 and 1027 as claimed. -/
theorem relay_vid_comparison_never_matches :
    (∀ vid : PyValue, relay_first_pass_match vid = false) ∧
    relay_first_pass_match (PyValue.intV 1027) = false ∧
    (∀ b : Bool, second_pass_classify (PyValue.intV 1240) b = some "Leak Detector") ∧
    (∀ b : Bool, second_pass_classify (PyValue.intV 42496) b = some "Helium Analyzer") ∧
    second_pass_classify (PyValue.intV 1027) true = some "Mass Flow Controller" ∧
    second_pass_classify (PyValue.intV 1027) false = some "Pressure Gauge" := by
  refine ⟨?_, rfl, ?_, ?_, rfl, rfl⟩
  · intro vid; cases vid <;> rfl
  · intro b; rfl
  · intro b; rfl


/-- C9: `read_from_serial` yields a parsed helium value only when bytes are
waiting at the moment of the call; with no waiting bytes the recursive
retry's result is discarded and the call returns `None` whatever the later
observations hold; and it returns `0` exactly when a serial exception is
raised during the call. -/
theorem read_from_serial_requires_waiting_bytes :
    ∀ (obs : PortObs) (rest : List PortObs),
      (obs.raises = false → obs.in_waiting = 0 →
        read_from_serial (obs :: rest) = PyRet.noneV) ∧
      (∀ v, read_from_serial (obs :: rest) = PyRet.strV v →
        obs.raises = false ∧ 0 < obs.in_waiting ∧ parse_data obs.line = some v) ∧
      (read_from_serial (obs :: rest) = PyRet.intV 0 ↔ obs.raises = true) := by
  intro obs rest
  refine ⟨?_, ?_, ?_⟩
  · intro hr hw
    simp [read_from_serial, hr, hw]
  · intro v hv
    by_cases hr : obs.raises
    · simp [read_from_serial, hr] at hv
    · by_cases hw : 0 < obs.in_waiting
      · simp only [read_from_serial, hr, if_false, hw, if_true] at hv
        cases hp : parse_data obs.line with
        | some w =>
          rw [hp] at hv
          injection hv with hwv
          subst hwv
          exact ⟨by simp [hr], hw, rfl⟩
        | none => rw [hp] at hv; cases hv
      · simp [read_from_serial, hr, hw] at hv
  · constructor
    · intro hv
      by_cases hr : obs.raises
      · exact hr
      · by_cases hw : 0 < obs.in_waiting
        · simp only [read_from_serial, hr, if_false, hw, if_true] at hv
          cases hp : parse_data obs.line with
          | some w => rw [hp] at hv; cases hv
          | none => rw [hp] at hv; cases hv
        · simp [read_from_serial, hr, hw] at hv
    · intro hr
      simp [read_from_serial, hr]

/-- Witness for C9: no bytes waiting at the call — the result is `None`,
even though the discarded recursive retry would observe a full analyzer
line. -/
theorem read_from_serial_requires_waiting_bytes_witness :
    read_from_serial
      [⟨false, 0, ""⟩,
       ⟨false, 12, "He 23.5% O2 21.2% Ti 25.0~C 1012.3 hPa 2024/05/14 15:30:00"⟩] =
      PyRet.noneV :=
  (read_from_serial_requires_waiting_bytes ⟨false, 0, ""⟩
    [⟨false, 12, "He 23.5% O2 21.2% Ti 25.0~C 1012.3 hPa 2024/05/14 15:30:00"⟩]).1 rfl rfl

/-- The pressure term simplifies to `(p+1)^2 - 1`. -/
theorem delta_p_eq (p : ℝ) :
    ((p + 1) ^ 2 - PB2 ^ 2) / (PA1 ^ 2 - PA2 ^ 2) = (p + 1) ^ 2 - 1 := by
  norm_num [PA1, PA2, PB2]

/-- At zero pressure difference the pressure factor is skipped. -/
theorem convert_he_to_air_zero_pd (h T : ℝ) (ru : String) :
    convert_he_to_air h T 0 ru =
      if ru = "SCCM" then (h * (ETA_HE / ETA_AIR) * 60) * Real.sqrt (T / T1)
      else h * (ETA_HE / ETA_AIR) := by
  unfold convert_he_to_air
  norm_num [PA1, PA2, PB2]

/-- For positive pressure difference the pressure factor `(p+1)^2 - 1` is
applied. -/
theorem convert_he_to_air_pos_pd (h T p : ℝ) (ru : String) (hp : 0 < p) :
    convert_he_to_air h T p ru =
      if ru = "SCCM" then
        ((h * (ETA_HE / ETA_AIR) * ((p + 1) ^ 2 - 1)) * 60) * Real.sqrt (T / T1)
      else h * (ETA_HE / ETA_AIR) * ((p + 1) ^ 2 - 1) := by
  have hd : (0 : ℝ) < (p + 1) ^ 2 - 1 := by nlinarith
  simp only [convert_he_to_air, delta_p_eq]
  rw [if_pos hd]

/-- Counterexample for C1 as stated: at zero pressure difference but with the
rate unit `"SCCM"`, the conversion does not return `h · η_He/η_air` — the
SCCM branch still multiplies by 60 (and by `sqrt(T/T1)`, equal to 1 at
`T = 273`). -/
theorem convert_he_to_air_zero_pd_sccm_counterexample :
    convert_he_to_air 1 273 0 "SCCM" ≠ 1 * (ETA_HE / ETA_AIR) := by
  rw [convert_he_to_air_zero_pd, if_pos rfl]
  have hT : (273 : ℝ) / T1 = 1 := by norm_num [T1]
  rw [hT, Real.sqrt_one, mul_one]
  norm_num [ETA_HE, ETA_AIR]

/-- C1 (amended): at zero pressure difference no pressure-difference factor
is applied: the conversion returns exactly `h · η_He/η_air` whenever the
rate unit is not `"SCCM"`, and `(h · η_He/η_air · 60) · sqrt(T/273)` when it
is `"SCCM"`. -/
theorem convert_he_to_air_zero_pd_viscosity_scaling :
    ∀ (h T : ℝ) (ru : String),
      (ru ≠ "SCCM" → convert_he_to_air h T 0 ru = h * (ETA_HE / ETA_AIR)) ∧
      (ru = "SCCM" → convert_he_to_air h T 0 ru
        = (h * (ETA_HE / ETA_AIR) * 60) * Real.sqrt (T / T1)) := by
  intro h T ru
  constructor
  · intro hru; rw [convert_he_to_air_zero_pd, if_neg hru]
  · intro hru; rw [convert_he_to_air_zero_pd, if_pos hru]

/-- Witness for C1 (amended): for the rate unit `"cm³/min"` and zero pressure
difference, the result is the pure viscosity-ratio scaling of `h = 2`. -/
theorem convert_he_to_air_zero_pd_viscosity_scaling_witness :
    convert_he_to_air 2 300 0 "cm³/min" = 2 * (ETA_HE / ETA_AIR) :=
  (convert_he_to_air_zero_pd_viscosity_scaling 2 300 "cm³/min").1 (by decide)

/-- Counterexample for C5 as stated: with helium rate 1 and pressure
differences `p1 = 0 ≤ p2 = 1/10`, the conversion decreases — at 0 the
pressure factor is skipped, while at 1/10 the factor `(1.1)^2 - 1 = 0.21`
is applied. -/
theorem convert_he_to_air_not_monotone_from_zero :
    (0 : ℝ) ≤ 1 ∧ (0 : ℝ) ≤ 0 ∧ (0 : ℝ) ≤ 1 / 10 ∧
    ¬ convert_he_to_air 1 273 0 "cm³/min" ≤ convert_he_to_air 1 273 (1 / 10) "cm³/min" := by
  refine ⟨by norm_num, le_refl 0, by norm_num, ?_⟩
  rw [convert_he_to_air_zero_pd, convert_he_to_air_pos_pd 1 273 (1 / 10) "cm³/min" (by norm_num)]
  rw [if_neg (by decide), if_neg (by decide)]
  push_neg
  have hr : (0 : ℝ) < ETA_HE / ETA_AIR := by norm_num [ETA_HE, ETA_AIR]
  nlinarith

/-- C5 (amended): for fixed `h ≥ 0`, fixed temperature and fixed rate unit,
the conversion is monotone nondecreasing in the pressure difference over
strictly positive pressure differences. -/
theorem convert_he_to_air_monotone_pos_pd :
    ∀ (h T p1 p2 : ℝ) (ru : String), 0 ≤ h → 0 < p1 → p1 ≤ p2 →
      convert_he_to_air h T p1 ru ≤ convert_he_to_air h T p2 ru := by
  intro h T p1 p2 ru hh hp1 h12
  have hp2 : 0 < p2 := lt_of_lt_of_le hp1 h12
  rw [convert_he_to_air_pos_pd h T p1 ru hp1, convert_he_to_air_pos_pd h T p2 ru hp2]
  have hbase : 0 ≤ h * (ETA_HE / ETA_AIR) := by
    apply mul_nonneg hh
    norm_num [ETA_HE, ETA_AIR]
  have hdle : (p1 + 1) ^ 2 - 1 ≤ (p2 + 1) ^ 2 - 1 := by nlinarith
  have hcore : h * (ETA_HE / ETA_AIR) * ((p1 + 1) ^ 2 - 1) ≤
      h * (ETA_HE / ETA_AIR) * ((p2 + 1) ^ 2 - 1) :=
    mul_le_mul_of_nonneg_left hdle hbase
  split_ifs with hru
  · have h60 : h * (ETA_HE / ETA_AIR) * ((p1 + 1) ^ 2 - 1) * 60 ≤
        h * (ETA_HE / ETA_AIR) * ((p2 + 1) ^ 2 - 1) * 60 := by linarith
    exact mul_le_mul_of_nonneg_right h60 (Real.sqrt_nonneg _)
  · exact hcore

/-- Witness for C5 (amended): monotone between the positive pressure
differences 1/10 and 2/10. -/
theorem convert_he_to_air_monotone_pos_pd_witness :
    convert_he_to_air 1 273 (1 / 10) "cm³/min" ≤ convert_he_to_air 1 273 (2 / 10) "cm³/min" :=
  convert_he_to_air_monotone_pos_pd 1 273 (1 / 10) (2 / 10) "cm³/min"
    (by norm_num) (by norm_num) (by norm_num)

/-- C7: the helium→air conversion is deterministic and stateless — it is
embedded as a pure function of exactly the helium leak rate, the average
temperature, the report's pressure difference and the report's rate unit,
so two calls with equal inputs return equal results and touch no other
state. -/
theorem convert_he_to_air_deterministic :
    ∀ (ha Ta pa : ℝ) (ua : String) (hb Tb pb : ℝ) (ub : String),
      ha = hb → Ta = Tb → pa = pb → ua = ub →
      convert_he_to_air ha Ta pa ua = convert_he_to_air hb Tb pb ub := by
  intro ha Ta pa ua hb Tb pb ub e1 e2 e3 e4
  rw [e1, e2, e3, e4]

/-- Witness for C7: two calls at the same concrete inputs agree. -/
theorem convert_he_to_air_deterministic_witness :
    convert_he_to_air 1 300 (1 / 2) "SCCM" = convert_he_to_air 1 300 (1 / 2) "SCCM" :=
  convert_he_to_air_deterministic 1 300 (1 / 2) "SCCM" 1 300 (1 / 2) "SCCM" rfl rfl rfl rfl

/-! ### Lemmas on the measurement loop -/

theorem step_he_cm3 (pd : ℝ) (m : MeasurementR) (flag : Bool) :
    step_measurement "cm³/min" "He" pd m flag = (scale60 m, false) := by
  simp [step_measurement, scale60]

theorem loop_he_cm3 (pd : ℝ) :
    ∀ (ms : List MeasurementR) (flag : Bool) (last : Option MeasurementR),
      (process_measurements_loop "cm³/min" "He" pd ms flag last).1 = ms.map scale60 := by
  intro ms
  induction ms with
  | nil => intro flag last; rfl
  | cons m rest ih =>
    intro flag last
    simp only [process_measurements_loop, step_he_cm3]
    simpa using ih false (some m)

theorem convert_y_he_cm3 (pd : ℝ) (mv : Option MeasurementR) (y : ℝ) :
    convert_y "cm³/min" "He" pd mv y = some (y * 60) := by
  simp [convert_y]

theorem convert_leak_rates_he_cm3 (pd : ℝ) (mv : Option MeasurementR) :
    ∀ ys : List ℝ,
      convert_leak_rates "cm³/min" "He" pd mv ys = some (ys.map (fun y => y * 60)) := by
  intro ys
  induction ys with
  | nil => rfl
  | cons y ys ih =>
    simp only [convert_leak_rates, convert_y_he_cm3, ih, List.map_cons]

theorem load_he_cm3 (pd : ℝ) (mv : Option MeasurementR) :
    ∀ sps : List SpecimenR,
      load_data_from_database_pdf "cm³/min" "He" pd mv sps =
        some (sps.map (fun sp => sp.y_value.map (fun y => y * 60))) := by
  intro sps
  induction sps with
  | nil => rfl
  | cons sp sps ih =>
    simp only [load_data_from_database_pdf, convert_leak_rates_he_cm3, ih, List.map_cons]

theorem step_air_flag (ru : String) (pd : ℝ) (m : MeasurementR) (flag : Bool) :
    (step_measurement ru "Air" pd m flag).2 = false := by
  simp [step_measurement]

theorem loop_air_last (ru : String) (pd : ℝ) :
    ∀ (ms : List MeasurementR) (flag : Bool) (last : Option MeasurementR)
      (mlast : MeasurementR), ms.getLast? = some mlast →
      (process_measurements_loop ru "Air" pd ms flag last).2 = some mlast := by
  intro ms
  induction ms with
  | nil => intro flag last mlast h; simp at h
  | cons m rest ih =>
    intro flag last mlast h
    simp only [process_measurements_loop, step_air_flag, if_false, Bool.false_eq_true]
    cases rest with
    | nil =>
      simp only [List.getLast?_singleton, Option.some.injEq] at h
      subst h
      rfl
    | cons b t =>
      rw [List.getLast?_cons_cons] at h
      exact ih false (some m) mlast h

theorem convert_y_air_some (ru : String) (pd : ℝ) (m : MeasurementR) (y : ℝ) :
    convert_y ru "Air" pd (some m) y =
      some (convert_he_to_air (if ru = "cm³/min" then y * 60 else y)
        m.average_temperature pd ru) := by
  simp [convert_y]

theorem convert_leak_rates_air_some (ru : String) (pd : ℝ) (m : MeasurementR) :
    ∀ ys : List ℝ,
      convert_leak_rates ru "Air" pd (some m) ys =
        some (ys.map (fun y =>
          convert_he_to_air (if ru = "cm³/min" then y * 60 else y)
            m.average_temperature pd ru)) := by
  intro ys
  induction ys with
  | nil => rfl
  | cons y ys ih =>
    simp only [convert_leak_rates, convert_y_air_some, ih, List.map_cons]

theorem load_air_some (ru : String) (pd : ℝ) (m : MeasurementR) :
    ∀ sps : List SpecimenR,
      load_data_from_database_pdf ru "Air" pd (some m) sps =
        some (sps.map (fun sp => sp.y_value.map (fun y =>
          convert_he_to_air (if ru = "cm³/min" then y * 60 else y)
            m.average_temperature pd ru))) := by
  intro sps
  induction sps with
  | nil => rfl
  | cons sp sps ih =>
    simp only [load_data_from_database_pdf, convert_leak_rates_air_some, ih, List.map_cons]

theorem convert_leak_rates_air_unbound (ru : String) (pd : ℝ) (y : ℝ) (ys : List ℝ) :
    convert_leak_rates ru "Air" pd none (y :: ys) = none := by
  simp [convert_leak_rates, convert_y]

theorem load_air_unbound (ru : String) (pd : ℝ) :
    ∀ sps : List SpecimenR, (∃ sp ∈ sps, sp.y_value ≠ []) →
      load_data_from_database_pdf ru "Air" pd none sps = none := by
  intro sps
  induction sps with
  | nil => rintro ⟨sp, hmem, hne⟩; simp at hmem
  | cons sp sps ih =>
    rintro ⟨sp1, hmem, hne⟩
    cases hy : sp.y_value with
    | nil =>
      rcases List.mem_cons.mp hmem with heq | hmem1
      · subst heq; rw [hy] at hne; exact absurd rfl hne
      · have hrec := ih ⟨sp1, hmem1, hne⟩
        simp only [load_data_from_database_pdf, hy, convert_leak_rates, hrec]
    | cons y ys =>
      simp only [load_data_from_database_pdf, hy, convert_leak_rates_air_unbound]

/-- C6: when the test medium is `"He"` and the rate unit is `"cm³/min"`,
every leak-rate value placed in the PDF is exactly 60 times the stored
per-second value and nothing else: each measurement's `max_value` and
`value_mbarl_second` are multiplied by 60 with all other fields unchanged,
and every point of every specimen's y-series is multiplied by 60. -/
theorem he_cm3min_values_scaled_by_60 :
    ∀ (pd : ℝ) (ms : List MeasurementR) (mv : Option MeasurementR)
      (sps : List SpecimenR),
      (process_measurements "cm³/min" "He" pd ms).1 = ms.map scale60 ∧
      load_data_from_database_pdf "cm³/min" "He" pd mv sps =
        some (sps.map (fun sp => sp.y_value.map (fun y => y * 60))) := by
  intro pd ms mv sps
  exact ⟨loop_he_cm3 pd ms true none, load_he_cm3 pd mv sps⟩

/-- C10: with test medium `"Air"`, the specimen conversion reads the
leftover measurement-loop variable, so every point of every specimen is
converted with the `average_temperature` of the last measurement of the
session's measurement list; when the measurement list is empty and some
specimen has a point, the conversion is undefined (`NameError`, modelled as
`none`). -/
theorem air_specimen_conversion_uses_leftover_measurement :
    ∀ (ru : String) (pd : ℝ) (ms : List MeasurementR) (sps : List SpecimenR),
      (∀ mlast : MeasurementR, ms.getLast? = some mlast →
        (process_measurements ru "Air" pd ms).2 = some mlast ∧
        load_data_from_database_pdf ru "Air" pd
            (process_measurements ru "Air" pd ms).2 sps =
          some (sps.map (fun sp => sp.y_value.map (fun y =>
            convert_he_to_air (if ru = "cm³/min" then y * 60 else y)
              mlast.average_temperature pd ru)))) ∧
      (ms = [] → (∃ sp ∈ sps, sp.y_value ≠ []) →
        load_data_from_database_pdf ru "Air" pd
          (process_measurements ru "Air" pd ms).2 sps = none) := by
  intro ru pd ms sps
  constructor
  · intro mlast hml
    have hsnd : (process_measurements ru "Air" pd ms).2 = some mlast :=
      loop_air_last ru pd ms true none mlast hml
    refine ⟨hsnd, ?_⟩
    rw [hsnd]
    exact load_air_some ru pd mlast sps
  · intro hms hex
    subst hms
    exact load_air_unbound ru pd sps hex

/-- Witness for C10: with one measurement at 300 K and one specimen point 5,
the leftover loop variable is that measurement and the point is converted
with its temperature. -/
theorem air_specimen_conversion_uses_leftover_measurement_witness :
    (process_measurements "mbar" "Air" 0 [mExample]).2 = some mExample ∧
    load_data_from_database_pdf "mbar" "Air" 0
        (process_measurements "mbar" "Air" 0 [mExample]).2 [spExample] =
      some ([spExample].map (fun sp => sp.y_value.map (fun y =>
        convert_he_to_air (if "mbar" = "cm³/min" then y * 60 else y)
          mExample.average_temperature 0 "mbar"))) :=
  (air_specimen_conversion_uses_leftover_measurement "mbar" 0 [mExample] [spExample]).1
    mExample (by simp)
